import Mathlib

/-!
Shallow embedding of `meshmaker.cpp` (emdb-empiar/meshmaker): the command-line
parser `parse_args` (lines 79-204) and the VTK pipeline wiring in `main`
(lines 206-331).  Command-line tokens are the `argv[1..]` list; machine floats
are modelled by `ℚ`; the C `int` flag fields of `struct args` are modelled by
`Nat` (the program only ever stores 0 or 1 in them, and C truthiness is
`≠ 0`).
-/

/-- The fields of `struct args` (meshmaker.cpp lines 38-52) with their
C++ default initialisers. -/
structure args where
  clevel : ℚ := 0
  out_fn : String := "out"
  map_fn : String := ""
  out_format : String := "vtp"
  decimate : Nat := 0
  smooth : Nat := 0
  smooth_iter : Int := 20
  target_reduction : ℚ := mkRat 9 10
  ascii : Nat := 0
  uint64 : Nat := 0
  int32 : Nat := 0
  verbose : Nat := 0
  out_fn_full : String := ""
  deriving Repr, DecidableEq

/-- The messages `parse_args` can emit: the two `cerr` error reports inside the
loop (the caught-exception report at lines 91/136 and the target-reduction
range report at line 141), the two `cerr` reports of the final checks
(missing input at line 190, the UInt64 warning at line 196), and the usage
text printed by `print_usage` (lines 54-76). -/
inductive Msg where
  | exceptionCaught : Msg
  | targetOutOfRange : ℚ → Msg
  | missingInput : Msg
  | uint64Warning : Msg
  | usageText : Msg
  deriving Repr, DecidableEq

/-- How a run of `parse_args` ends.
* `ok` — the function returns and `main` goes on to run the pipeline;
* `aborted` — `abort()` is called (line 169 after `print_usage`, or line 201
  after the final checks), terminating the process with a non-zero status;
* `uncaught` — the bare `stoi` call at line 128 threw and no handler exists,
  so the exception terminates the process (non-zero status);
* `outOfBounds` — the code read `argv[i+1]` with `i+1 = argc` (a value-taking
  option was the final token): in C this dereferences the terminating null
  pointer, undefined behaviour; the total embedding reaches this marker. -/
inductive ParseOutcome where
  | ok : args → ParseOutcome
  | aborted : ParseOutcome
  | uncaught : ParseOutcome
  | outOfBounds : ParseOutcome
  deriving Repr, DecidableEq

/-- Result of the parse: the messages printed to `cerr` in order, and how the
parse ended. -/
structure ParseResult where
  msgs : List Msg
  outcome : ParseOutcome
  deriving Repr, DecidableEq

/-- The running state of the `parse_args` loop: the `args` being filled in,
the `_abort` collect-errors flag (a C `int`, initially 0), and the messages
printed so far. -/
structure ParseState where
  cargs : args
  abortFlag : Nat
  msgs : List Msg
  deriving Repr, DecidableEq

/-- Decimal digits to a natural number, most significant first. -/
def digitsToNat (ds : List Char) : Nat :=
  ds.foldl (fun a c => 10 * a + (c.toNat - 48)) 0

/-- Split an optional leading sign off a character list. -/
def splitSign (cs : List Char) : Int × List Char :=
  match cs with
  | '-' :: t => (-1, t)
  | '+' :: t => (1, t)
  | _ => (1, cs)

/-- Model of the C++ standard-library `std::stof` (called at meshmaker.cpp
lines 88 and 134) restricted to plain decimal literals: an optional sign,
then digits with an optional fractional part; the longest valid prefix is
converted.  `none` models the `std::invalid_argument` exception thrown when
no conversion can be performed.  Exponent, hexadecimal and infinity/NaN
forms, leading whitespace, and float overflow are outside this model. -/
def stofModel (s : String) : Option ℚ :=
  let p := splitSign s.data
  let intPart := p.2.takeWhile Char.isDigit
  let rest := p.2.dropWhile Char.isDigit
  let fracPart :=
    match rest with
    | '.' :: t => t.takeWhile Char.isDigit
    | _ => []
  if intPart = [] ∧ fracPart = [] then none
  else
    some (mkRat (p.1 * (digitsToNat (intPart ++ fracPart) : Int))
      (10 ^ fracPart.length))

/-- Model of the C++ standard-library `std::stoi` (called at meshmaker.cpp
line 128) restricted to plain decimal integers: optional sign then digits;
the longest valid prefix is converted.  `none` models the
`std::invalid_argument` exception when no digit is present. -/
def stoiModel (s : String) : Option Int :=
  let p := splitSign s.data
  let ds := p.2.takeWhile Char.isDigit
  if ds = [] then none else some (p.1 * (digitsToNat ds : Int))

/-- The final section of `parse_args` (lines 184-203): build `out_fn_full`,
check that an input map file was given (line 189), warn when UInt64 headers
are requested with a non-vtp format (line 195), and `abort()` when the
`_abort` flag was set (line 200); otherwise return the parsed `args`. -/
def finalize (st : ParseState) : ParseResult :=
  let cargs1 := { st.cargs with
    out_fn_full := st.cargs.out_fn ++ "." ++ st.cargs.out_format }
  let missing := cargs1.map_fn = ""
  let msgs1 := if missing then st.msgs ++ [Msg.missingInput] else st.msgs
  let ab1 := if missing then 1 else st.abortFlag
  let msgs2 :=
    if cargs1.uint64 = 1 ∧ cargs1.out_format ≠ "vtp" then
      msgs1 ++ [Msg.uint64Warning]
    else msgs1
  if ab1 ≠ 0 then { msgs := msgs2, outcome := ParseOutcome.aborted }
  else { msgs := msgs2, outcome := ParseOutcome.ok cargs1 }

/-- The body of the `-t` (`--target-reduction`) branch (lines 132-145): the
`try`/`catch` around `stof` (on failure the previous `target_reduction`
value is kept and `_abort` is set), followed by the range check
`target_reduction <= 0 || target_reduction >= 1` on the current value
(line 140), which reports the value and sets `_abort` when violated. -/
def targetStep (st : ParseState) (v : String) : ParseState :=
  let st1 :=
    match stofModel v with
    | some x => { st with cargs := { st.cargs with target_reduction := x } }
    | none =>
        { st with abortFlag := 1, msgs := st.msgs ++ [Msg.exceptionCaught] }
  if st1.cargs.target_reduction ≤ 0 ∨ 1 ≤ st1.cargs.target_reduction then
    { st1 with
      abortFlag := 1
      msgs := st1.msgs ++ [Msg.targetOutOfRange st1.cargs.target_reduction] }
  else st1

/-- The `while (i < argc)` loop of `parse_args` (lines 84-182), as a recursion
over the remaining tokens `argv[i..]`.  Each branch is the corresponding
`strcmp` chain of the source; a branch that reads `argv[i+1]` when no such
token exists yields `outOfBounds` (see `ParseOutcome`). -/
def parseLoop : List String → ParseState → ParseResult
  | [], st => finalize st
  | tok :: rest, st =>
    if tok = "-c" ∨ tok = "--clevel" then
      match rest with
      | [] => { msgs := st.msgs, outcome := ParseOutcome.outOfBounds }
      | v :: rest2 =>
        match stofModel v with
        | some x =>
            parseLoop rest2 { st with cargs := { st.cargs with clevel := x } }
        | none =>
            parseLoop rest2
              { st with abortFlag := 1, msgs := st.msgs ++ [Msg.exceptionCaught] }
    else if tok = "-o" ∨ tok = "--output" then
      match rest with
      | [] => { msgs := st.msgs, outcome := ParseOutcome.outOfBounds }
      | v :: rest2 =>
        parseLoop rest2 { st with cargs := { st.cargs with out_fn := v } }
    else if tok = "-S" ∨ tok = "--stl" then
      parseLoop rest { st with cargs := { st.cargs with out_format := "stl" } }
    else if tok = "-V" ∨ tok = "--vtk" then
      parseLoop rest { st with cargs := { st.cargs with out_format := "vtk" } }
    else if tok = "-X" ∨ tok = "--vtp" then
      parseLoop rest { st with cargs := { st.cargs with out_format := "vtp" } }
    else if tok = "-D" ∨ tok = "--decimate" then
      parseLoop rest { st with cargs := { st.cargs with decimate := 1 } }
    else if tok = "-s" ∨ tok = "--smooth" then
      parseLoop rest { st with cargs := { st.cargs with smooth := 1 } }
    else if tok = "-i" ∨ tok = "--smooth-iter" then
      -- note: this branch advances `i` by only 1 (line 129), so the value
      -- token is seen again by the next iteration
      match rest with
      | [] => { msgs := st.msgs, outcome := ParseOutcome.outOfBounds }
      | v :: _ =>
        match stoiModel v with
        | some n =>
            parseLoop rest { st with cargs := { st.cargs with smooth_iter := n } }
        | none => { msgs := st.msgs, outcome := ParseOutcome.uncaught }
    else if tok = "-t" ∨ tok = "--target-reduction" then
      match rest with
      | [] => { msgs := st.msgs, outcome := ParseOutcome.outOfBounds }
      | v :: rest2 => parseLoop rest2 (targetStep st v)
    else if tok = "-A" ∨ tok = "--ascii" then
      parseLoop rest { st with cargs := { st.cargs with ascii := 1 } }
    else if tok = "-U" ∨ tok = "--uint64" then
      parseLoop rest { st with cargs := { st.cargs with uint64 := 1 } }
    else if tok = "-I" ∨ tok = "--int32" then
      parseLoop rest { st with cargs := { st.cargs with int32 := 1 } }
    else if tok = "-v" ∨ tok = "--verbose" then
      parseLoop rest { st with cargs := { st.cargs with verbose := 1 } }
    else if tok = "-h" ∨ tok = "--help" then
      { msgs := st.msgs ++ [Msg.usageText], outcome := ParseOutcome.aborted }
    else
      parseLoop rest { st with cargs := { st.cargs with map_fn := tok } }

/-- The initial state of `parse_args`: default-initialised `struct args`,
`_abort = 0`, nothing printed. -/
def initState : ParseState :=
  { cargs := {}, abortFlag := 0, msgs := [] }

/-- `parse_args(argc, argv)` (lines 79-204) on the argument tokens after the
program name (the C loop starts at `i = 1`). -/
def parse_args (argv : List String) : ParseResult :=
  parseLoop argv initState

/-- Whether a parse result lets `main` go on to run the pipeline (only a
normal return from `parse_args` does; every other outcome terminates the
process first). -/
def runsPipeline (r : ParseResult) : Bool :=
  match r.outcome with
  | ParseOutcome.ok _ => true
  | _ => false

/-- The VTK filter objects created by `main` (meshmaker.cpp lines 213-266):
the MRC reader, the contour filter (isosurface extraction), the triangle
filter, the smoothing filter, the progressive-decimation filter and the
stripper (triangle strips). -/
inductive Stage where
  | reader : Stage
  | cfilt : Stage
  | tfilt : Stage
  | sfilt : Stage
  | dfilt : Stage
  | strip : Stage
  deriving Repr, DecidableEq

/-- The `SetInputConnection` wiring of `main` (lines 220, 230, 236, 244-247,
257-264): which stage's output port each stage consumes, for a given parsed
configuration.  `none` means the stage's input is never connected in that
run (the object is created but unused).  C truthiness of the `int` flags is
`≠ 0`. -/
def stageInput (cargs : args) : Stage → Option Stage
  | Stage.reader => none
  | Stage.cfilt => some Stage.reader
  | Stage.tfilt =>
      if cargs.decimate ≠ 0 ∨ cargs.smooth ≠ 0 then some Stage.cfilt else none
  | Stage.sfilt =>
      if cargs.decimate ≠ 0 ∨ cargs.smooth ≠ 0 then
        (if cargs.smooth ≠ 0 then some Stage.tfilt else none)
      else none
  | Stage.dfilt =>
      if cargs.decimate ≠ 0 ∨ cargs.smooth ≠ 0 then
        (if cargs.decimate ≠ 0 then
          (if cargs.smooth ≠ 0 then some Stage.sfilt else some Stage.tfilt)
        else none)
      else none
  | Stage.strip =>
      if cargs.decimate ≠ 0 ∨ cargs.smooth ≠ 0 then
        (if cargs.decimate ≠ 0 then some Stage.dfilt else some Stage.sfilt)
      else some Stage.cfilt

/-- The stage whose output port every one of the three writers consumes:
all three branches of the format dispatch call
`writer->SetInputConnection(strip->GetOutputPort())` (lines 277, 292, 306). -/
def writerInput (_cargs : args) : Stage :=
  Stage.strip

/-- The two parameters `main` sets on the decimation filter when decimation
is enabled: `dfilt->SetTargetReduction(cargs.target_reduction)` (line 248)
and `dfilt->PreserveTopologyOn()` (line 249).  `none` when the branch at
line 241 is not taken and the filter is left unconfigured. -/
def dfiltSettings (cargs : args) : Option (ℚ × Bool) :=
  if cargs.decimate ≠ 0 ∨ cargs.smooth ≠ 0 then
    (if cargs.decimate ≠ 0 then some (cargs.target_reduction, true) else none)
  else none

/-- The writer `main` configures, by output format (lines 271-328): the STL
writer (file name, ASCII flag), the legacy VTK writer (file name, ASCII
flag), or the XML VTP writer (file name, Int32-id flag, ASCII flag, UInt64
header flag).  `none` when `out_format` matches no branch (unreachable for
configurations produced by `parse_args`, which only ever stores
"stl"/"vtk"/"vtp").  Only the VTP branch reads `cargs.uint64` and
`cargs.int32`. -/
inductive WriterPlan where
  | stlW : String → Bool → WriterPlan
  | vtkW : String → Bool → WriterPlan
  | vtpW : String → Bool → Bool → Bool → WriterPlan
  deriving Repr, DecidableEq

/-- The format dispatch of `main` (lines 271-328). -/
def writerPlan (cargs : args) : Option WriterPlan :=
  if cargs.out_format = "stl" then
    some (WriterPlan.stlW cargs.out_fn_full (cargs.ascii ≠ 0))
  else if cargs.out_format = "vtk" then
    some (WriterPlan.vtkW cargs.out_fn_full (cargs.ascii ≠ 0))
  else if cargs.out_format = "vtp" then
    some (WriterPlan.vtpW cargs.out_fn_full (cargs.int32 ≠ 0) (cargs.ascii ≠ 0)
      (cargs.uint64 ≠ 0))
  else none

/-- The exit status of `main` after the writer branch: the return value of
`writer->Write()` is discarded in all three branches (lines 283, 297, 327)
and `main` unconditionally executes `return EXIT_SUCCESS` (line 330).
`writeOk` models whether the VTK writer succeeded (false when the
destination is unwritable); it does not influence the status. -/
def mainExitCode (_cargs : args) (_writeOk : Bool) : Nat :=
  0

/-- All option tokens matched by the `strcmp` chains of `parse_args`
(lines 86-170); any other token falls through to the final `else`
(line 172) and is stored as the map filename. -/
def optionTokens : List String :=
  ["-c", "--clevel", "-o", "--output", "-S", "--stl", "-V", "--vtk",
   "-X", "--vtp", "-D", "--decimate", "-s", "--smooth", "-i",
   "--smooth-iter", "-t", "--target-reduction", "-A", "--ascii",
   "-U", "--uint64", "-I", "--int32", "-v", "--verbose", "-h", "--help"]

/-- A token the parser recognizes as an option. -/
def recognizedToken (t : String) : Prop :=
  t ∈ optionTokens

instance : DecidablePred recognizedToken := fun t => by
  unfold recognizedToken
  infer_instance

/-- The value-taking option tokens: parsing each of them reads `argv[i+1]`
(lines 88, 98, 128, 134). -/
def valueOptionTokens : List String :=
  ["-c", "--clevel", "-o", "--output", "-i", "--smooth-iter",
   "-t", "--target-reduction"]

/-! ### Helper lemmas about the parse loop -/

/-- `finalize` lets the pipeline run exactly when the `_abort` flag is clear
and an input file was named. -/
theorem runsPipeline_finalize (st : ParseState) :
    runsPipeline (finalize st) = true ↔
      (st.abortFlag = 0 ∧ st.cargs.map_fn ≠ "") := by
  unfold finalize runsPipeline
  by_cases hm : st.cargs.map_fn = "" <;>
    by_cases ha : st.abortFlag = 0 <;>
    simp [hm, ha]

/-- The final checks of `parse_args` call `abort()` when the `_abort` flag
is set. -/
theorem finalize_abort (st : ParseState) (h : st.abortFlag ≠ 0) :
    runsPipeline (finalize st) = false := by
  simp only [finalize, runsPipeline]
  split_ifs <;> simp_all

/-- The `-t` branch body never clears the `_abort` flag. -/
theorem targetStep_abort (st : ParseState) (v : String)
    (h : st.abortFlag ≠ 0) : (targetStep st v).abortFlag ≠ 0 := by
  simp only [targetStep]
  rcases h2 : stofModel v with _ | x <;> simp only [h2] <;>
    split_ifs <;> simp_all

/-- The `-t` branch body never erases earlier messages. -/
theorem targetStep_msgs (st : ParseState) (v : String) (m : Msg)
    (h : m ∈ st.msgs) : m ∈ (targetStep st v).msgs := by
  simp only [targetStep]
  rcases h2 : stofModel v with _ | x <;> simp only [h2] <;>
    split_ifs <;> simp_all

/-- The final checks never erase earlier messages. -/
theorem finalize_msgs (st : ParseState) (m : Msg) (h : m ∈ st.msgs) :
    m ∈ (finalize st).msgs := by
  simp only [finalize]
  split_ifs <;> simp_all

/-- Once the `_abort` flag is set, no continuation of the loop can end in a
normal return: `abort()` (or an earlier termination) is inevitable.  The
source never resets `_abort` (lines 82-202). -/
theorem abort_persists (l : List String) (st : ParseState) :
    st.abortFlag ≠ 0 → runsPipeline (parseLoop l st) = false := by
  induction l, st using parseLoop.induct <;>
    intro hab <;>
    rw [parseLoop.eq_def] <;>
    first
      | exact finalize_abort _ hab
      | simp_all [runsPipeline, finalize_abort, targetStep_abort]

/-- Messages already printed are part of the messages of any continuation of
the loop: `parse_args` never retracts `cerr` output. -/
theorem msgs_mono (l : List String) (st : ParseState) (m : Msg) :
    m ∈ st.msgs → m ∈ (parseLoop l st).msgs := by
  induction l, st using parseLoop.induct <;>
    intro hm <;>
    rw [parseLoop.eq_def] <;>
    simp_all [finalize_msgs, targetStep_msgs]

/-- The final checks can only return or call `abort()`; they never read
`argv` out of bounds. -/
theorem finalize_not_oob (st : ParseState) :
    (finalize st).outcome ≠ ParseOutcome.outOfBounds := by
  simp only [finalize]
  split_ifs <;> simp

/-- When the `-t` value converts to an out-of-range number, the branch body
stores the value, reports it and sets the `_abort` flag. -/
theorem targetStep_out_of_range (st : ParseState) (v : String) (t : ℚ)
    (hv : stofModel v = some t) (ht : t ≤ 0 ∨ 1 ≤ t) :
    targetStep st v =
      { cargs := { st.cargs with target_reduction := t }
        abortFlag := 1
        msgs := st.msgs ++ [Msg.targetOutOfRange t] } := by
  simp only [targetStep, hv]
  rw [if_pos]
  simpa using ht

/-- A token that is not one of the recognized options is stored as the map
filename (the final `else` of the loop, lines 172-181) and the loop moves
on to the next token. -/
theorem parseLoop_positional (tok : String) (rest : List String)
    (st : ParseState) (h : ¬ recognizedToken tok) :
    parseLoop (tok :: rest) st =
      parseLoop rest { st with cargs := { st.cargs with map_fn := tok } } := by
  simp only [recognizedToken, optionTokens, List.mem_cons, List.not_mem_nil,
    or_false] at h
  push_neg at h
  obtain ⟨h1, h2, h3, h4, h5, h6, h7, h8, h9, h10, h11, h12, h13, h14,
    h15, h16, h17, h18, h19, h20, h21, h22, h23, h24, h25, h26, h27, h28⟩ := h
  rw [parseLoop.eq_def]
  simp [h1, h2, h3, h4, h5, h6, h7, h8, h9, h10, h11, h12, h13, h14,
    h15, h16, h17, h18, h19, h20, h21, h22, h23, h24, h25, h26, h27, h28]

/-- A token that `stoi` can convert starts with a digit (after an optional
sign), so it is none of the recognized option tokens. -/
theorem stoiModel_some_unrecognized (v : String) (n : Int)
    (hv : stoiModel v = some n) : ¬ recognizedToken v := by
  intro hr
  have h1 : (stoiModel v).isSome = true := by rw [hv]; rfl
  have h2 : ∀ t ∈ optionTokens, (stoiModel t).isSome = false := by decide
  rw [h2 v hr] at h1
  exact Bool.noConfusion h1

/-! ### Claims -/

/-- C1 (counterexample): the claim says the Triangulator receives the
extractor's output in every run; but in a run with neither smoothing nor
decimation enabled (the default configuration) the triangle filter's input
is never connected — the stage wiring block (lines 226-251) is skipped and
the stripper consumes the contour filter directly (line 264). -/
theorem c1_counterexample :
    ¬ stageInput {} Stage.tfilt = some Stage.cfilt := by
  decide

/-- C1 (amended): the Triangulator receives the extractor's output exactly
when smoothing or decimation is enabled; otherwise the StripBuilder
consumes the extractor's output directly and the Triangulator is unused.
The enabled optional stages are wired in the order Smoother before
Decimator: the Smoother reads the Triangulator, the Decimator reads the
Smoother when both are enabled (and the Triangulator when only decimation
is), the StripBuilder reads the last enabled optional stage, and every
writer reads the StripBuilder. -/
theorem c1_pipeline_wiring (cargs : args) :
    ((cargs.decimate ≠ 0 ∨ cargs.smooth ≠ 0) →
        stageInput cargs Stage.tfilt = some Stage.cfilt) ∧
    (cargs.decimate = 0 ∧ cargs.smooth = 0 →
        stageInput cargs Stage.tfilt = none ∧
        stageInput cargs Stage.strip = some Stage.cfilt) ∧
    (cargs.smooth ≠ 0 → stageInput cargs Stage.sfilt = some Stage.tfilt) ∧
    (cargs.smooth ≠ 0 ∧ cargs.decimate ≠ 0 →
        stageInput cargs Stage.dfilt = some Stage.sfilt) ∧
    (cargs.smooth = 0 ∧ cargs.decimate ≠ 0 →
        stageInput cargs Stage.dfilt = some Stage.tfilt) ∧
    (cargs.decimate ≠ 0 → stageInput cargs Stage.strip = some Stage.dfilt) ∧
    (cargs.decimate = 0 ∧ cargs.smooth ≠ 0 →
        stageInput cargs Stage.strip = some Stage.sfilt) ∧
    writerInput cargs = Stage.strip := by
  unfold stageInput writerInput
  by_cases hd : cargs.decimate = 0 <;> by_cases hs : cargs.smooth = 0 <;>
    simp [hd, hs]

/-- Witness for C1 (amended): with both smoothing and decimation enabled,
the Triangulator reads the contour filter and the Decimator reads the
Smoother. -/
theorem c1_pipeline_wiring_witness :
    stageInput { decimate := 1, smooth := 1 } Stage.tfilt =
        some Stage.cfilt ∧
    stageInput { decimate := 1, smooth := 1 } Stage.dfilt =
        some Stage.sfilt :=
  ⟨(c1_pipeline_wiring { decimate := 1, smooth := 1 }).1
      (Or.inl (by decide)),
   (c1_pipeline_wiring { decimate := 1, smooth := 1 }).2.2.2.1
      ⟨by decide, by decide⟩⟩

/-- C2 (counterexample): the claim says a failed write makes the process
exit non-zero; but `main` discards the return value of `writer->Write()`
(lines 283, 297, 327) and unconditionally returns `EXIT_SUCCESS`
(line 330), so with an unwritable destination (modelled by `writeOk =
false`) the exit status is still 0. -/
theorem c2_counterexample :
    ¬ mainExitCode
        { map_fn := "m.map", out_format := "stl", out_fn_full := "out.stl" }
        false ≠ 0 := by
  decide

/-- C2 (amended): the writer library may report a write error itself, but
`main` never inspects the writer's status: the process exits with status 0
(`EXIT_SUCCESS`) whether or not the write succeeded, so an unwritable
destination is not reflected in the exit status. -/
theorem c2_exit_status (cargs : args) (writeOk : Bool) :
    mainExitCode cargs writeOk = 0 :=
  rfl

/-- C3 (failing input): on the argument list `["-i", "oops"]` — which
contains a malformed numeric option value and is missing the required input
path — the bare `stoi` at line 128 throws an uncaught exception, so
the process terminates at once: no configuration error is collected or
reported (`msgs = []`), the missing-input check at line 189 never runs, and
nothing is "shown together", contrary to the claim's collect-and-report
behaviour (which lines 86-95, 132-145 and 187-202 do implement for the
contour-level and target-reduction options and the missing-input check). -/
theorem c3_failing_input :
    parse_args ["-i", "oops"] =
      { msgs := [], outcome := ParseOutcome.uncaught } := by
  decide

/-- C5: whenever decimation is enabled, `main` configures the decimation
filter with the parsed target reduction and turns topology preservation on
(lines 248-249). -/
theorem c5_decimator_configured (cargs : args) (hd : cargs.decimate ≠ 0) :
    dfiltSettings cargs = some (cargs.target_reduction, true) := by
  unfold dfiltSettings
  simp [hd]

/-- Witness for C5: a configuration with decimation enabled and the default
target reduction 0.9. -/
theorem c5_decimator_configured_witness :
    dfiltSettings { decimate := 1 } = some (mkRat 9 10, true) :=
  c5_decimator_configured { decimate := 1 } (by decide)

/-- C4: whenever the parse loop reaches the target-reduction option with a
value token converting to `t` with `t ≤ 0` or `t ≥ 1` (including exactly 0
and exactly 1), the out-of-range report is emitted and no continuation of
the parse can reach a normal return — the pipeline, and with it any
geometry processing, never runs. -/
theorem c4_target_reduction_rejected (opt v : String) (rest : List String)
    (st : ParseState) (t : ℚ)
    (hopt : opt = "-t" ∨ opt = "--target-reduction")
    (hv : stofModel v = some t) (ht : t ≤ 0 ∨ 1 ≤ t) :
    Msg.targetOutOfRange t ∈ (parseLoop (opt :: v :: rest) st).msgs ∧
    runsPipeline (parseLoop (opt :: v :: rest) st) = false := by
  have hstep : parseLoop (opt :: v :: rest) st = parseLoop rest (targetStep st v) := by
    rcases hopt with h | h <;> subst h <;> rw [parseLoop.eq_def] <;> simp
  rw [hstep, targetStep_out_of_range st v t hv ht]
  constructor
  · exact msgs_mono _ _ _ (by simp)
  · exact abort_persists _ _ (by simp)

/-- Witness for C4: `meshmaker -t 0 m.map` reports the value 0 as out of
range and never runs the pipeline. -/
theorem c4_target_reduction_rejected_witness :
    Msg.targetOutOfRange 0 ∈ (parse_args ["-t", "0", "m.map"]).msgs ∧
    runsPipeline (parse_args ["-t", "0", "m.map"]) = false :=
  c4_target_reduction_rejected "-t" "0" ["m.map"] initState 0
    (Or.inl rfl) (by decide) (Or.inl le_rfl)

/-- C6: whenever the parse loop reaches a help flag, `print_usage` prints
the usage text and `abort()` terminates the process with a non-zero status
(lines 167-170) — the pipeline never runs. -/
theorem c6_help_aborts (opt : String) (rest : List String) (st : ParseState)
    (hopt : opt = "-h" ∨ opt = "--help") :
    parseLoop (opt :: rest) st =
      { msgs := st.msgs ++ [Msg.usageText]
        outcome := ParseOutcome.aborted } ∧
    runsPipeline (parseLoop (opt :: rest) st) = false := by
  have hstep : parseLoop (opt :: rest) st =
      { msgs := st.msgs ++ [Msg.usageText]
        outcome := ParseOutcome.aborted } := by
    rcases hopt with h | h <;> subst h <;> rw [parseLoop.eq_def] <;> simp
  exact ⟨hstep, by rw [hstep]; rfl⟩

/-- Witness for C6: `meshmaker -h` prints the usage text and aborts. -/
theorem c6_help_aborts_witness :
    parse_args ["-h"] =
      { msgs := [Msg.usageText], outcome := ParseOutcome.aborted } ∧
    runsPipeline (parse_args ["-h"]) = false :=
  c6_help_aborts "-h" [] initState (Or.inl rfl)

/-- C7: requesting UInt64 headers with a non-vtp output format only emits
the warning of line 196: it never affects whether the run proceeds (the
final checks abort exactly when the `_abort` flag is set or the input file
is missing, line 200 and line 189), and the header-width field has no
effect on the configured writer for a non-vtp format (the `SetHeaderType`
calls exist only in the vtp branch, lines 318-326). -/
theorem c7_uint64_warning_not_error (st : ParseState) (b : Nat)
    (hu : st.cargs.uint64 = 1) (hf : st.cargs.out_format ≠ "vtp") :
    Msg.uint64Warning ∈ (finalize st).msgs ∧
    (runsPipeline (finalize st) = true ↔
      (st.abortFlag = 0 ∧ st.cargs.map_fn ≠ "")) ∧
    writerPlan { st.cargs with uint64 := b } = writerPlan st.cargs := by
  refine ⟨?_, runsPipeline_finalize st, ?_⟩
  · simp only [finalize]
    split_ifs <;> simp_all
  · unfold writerPlan
    split_ifs <;> simp_all

/-- Witness for C7: `meshmaker -U -S m.map` (UInt64 headers with STL
output): the warning is emitted, the run proceeds, and flipping the
header-width flag leaves the configured writer unchanged. -/
theorem c7_uint64_warning_not_error_witness :
    Msg.uint64Warning ∈ (finalize
      { cargs := { map_fn := "m.map", out_format := "stl", uint64 := 1 }
        abortFlag := 0
        msgs := [] }).msgs ∧
    (runsPipeline (finalize
      { cargs := { map_fn := "m.map", out_format := "stl", uint64 := 1 }
        abortFlag := 0
        msgs := [] }) = true ↔
      ((0 : Nat) = 0 ∧ ("m.map" : String) ≠ "")) ∧
    writerPlan
        { { map_fn := "m.map", out_format := "stl", uint64 := 1 : args }
          with uint64 := 0 } =
      writerPlan { map_fn := "m.map", out_format := "stl", uint64 := 1 } :=
  c7_uint64_warning_not_error
    { cargs := { map_fn := "m.map", out_format := "stl", uint64 := 1 }
      abortFlag := 0
      msgs := [] } 0 rfl (by decide)

/-- C8: whenever the parse loop meets a token that is not a recognized
option (including flag-like tokens such as `-z`), it overwrites the map
filename with it — no error and no message — and moves on; consequently on
a run of such tokens the last one is the input filename the final checks
see, and earlier ones are silently discarded. -/
theorem c8_positional_last_wins :
    (∀ (tok : String) (rest : List String) (st : ParseState),
      ¬ recognizedToken tok →
        parseLoop (tok :: rest) st =
          parseLoop rest { st with cargs :=
            { st.cargs with map_fn := tok } }) ∧
    (∀ (ts : List String) (st : ParseState),
      (∀ t ∈ ts, ¬ recognizedToken t) →
        parseLoop ts st =
          finalize { st with cargs :=
            { st.cargs with map_fn := ts.getLastD st.cargs.map_fn } }) := by
  refine ⟨parseLoop_positional, ?_⟩
  intro ts
  induction ts with
  | nil => intro st h; rfl
  | cons t ts ih =>
    intro st h
    rw [parseLoop_positional t ts st (h t (by simp)),
      ih _ (fun x hx => h x (by simp [hx])), List.getLastD_cons]

/-- Witness for C8: the flag-like token `-z` overwrites a previously stored
filename, and `meshmaker a.map -z` parses successfully with `-z` as the
input filename, silently discarding `a.map`. -/
theorem c8_positional_last_wins_witness :
    (parseLoop ["-z"]
        { cargs := { map_fn := "a.map" }, abortFlag := 0, msgs := [] } =
      parseLoop []
        { cargs := { map_fn := "-z" }, abortFlag := 0, msgs := [] }) ∧
    parse_args ["a.map", "-z"] =
      { msgs := []
        outcome := ParseOutcome.ok
          { map_fn := "-z", out_fn_full := "out.vtp" } } :=
  ⟨c8_positional_last_wins.1 "-z" []
      { cargs := { map_fn := "a.map" }, abortFlag := 0, msgs := [] }
      (by decide),
   (c8_positional_last_wins.2 ["a.map", "-z"] initState (by decide)).trans
      (by decide)⟩

/-- C9: the smooth-iteration branch (lines 127-130) advances the cursor by
one token only after reading its value, so the value token is parsed again
by the next iteration; being unrecognized, it is then stored as the
positional input filename. -/
theorem c9_smooth_iter_value_reparsed (opt v : String) (n : Int)
    (rest : List String) (st : ParseState)
    (hopt : opt = "-i" ∨ opt = "--smooth-iter")
    (hv : stoiModel v = some n) :
    parseLoop (opt :: v :: rest) st =
      parseLoop rest { st with cargs :=
        { st.cargs with map_fn := v, smooth_iter := n } } := by
  have hstep : parseLoop (opt :: v :: rest) st =
      parseLoop (v :: rest) { st with cargs :=
        { st.cargs with smooth_iter := n } } := by
    rcases hopt with h | h <;> subst h <;> rw [parseLoop.eq_def] <;>
      simp [hv]
  rw [hstep,
    parseLoop_positional v rest _ (stoiModel_some_unrecognized v n hv)]

/-- Witness for C9: `meshmaker -i 30 m.map` first stores 30 as the
iteration count, then re-reads the token `30` and makes it the input
filename, and finally lets `m.map` overwrite it — so the run parses, but
`meshmaker -i 30` alone would use `30` as the input filename. -/
theorem c9_smooth_iter_value_reparsed_witness :
    parseLoop ["-i", "30"] initState =
      parseLoop [] { initState with cargs :=
        { initState.cargs with map_fn := "30", smooth_iter := 30 } } :=
  c9_smooth_iter_value_reparsed "-i" "30" 30 [] initState (Or.inl rfl)
    (by decide)

/-- C10: each value-taking option reads the token after it: when such an
option is the final token the embedding reaches the out-of-bounds marker
(`argv[i+1]` is past the end of the argument array), and when a value
token follows, that access is in bounds — a two-token argument list
`[option, value]` never reaches the out-of-bounds branch. -/
theorem c10_trailing_option_oob (opt : String) (st : ParseState)
    (hopt : opt ∈ valueOptionTokens) :
    (parseLoop [opt] st).outcome = ParseOutcome.outOfBounds ∧
    ∀ v : String,
      (parseLoop [opt, v] st).outcome ≠ ParseOutcome.outOfBounds := by
  fin_cases hopt <;> refine ⟨by rw [parseLoop.eq_def]; simp, fun v => ?_⟩ <;>
    rw [parseLoop.eq_def] <;> simp only [] <;>
    first
    | -- the -i branch: the value is either rejected by stoi (uncaught
      -- exception) or re-parsed as a positional token
      (rcases hsv : stoiModel v with _ | n <;> simp [hsv] <;>
       rw [parseLoop_positional v [] _ (stoiModel_some_unrecognized v n hsv)] <;>
       exact finalize_not_oob _)
    | -- the -c, -o and -t branches: both stof outcomes (irrelevant for
      -- -o) step to the final checks
      (rcases hsv : stofModel v with _ | x <;> simp [hsv] <;>
        exact finalize_not_oob _)

/-- Witness for C10: `meshmaker -c` reads past the end of the argument
array, while `meshmaker -c 0.5` does not. -/
theorem c10_trailing_option_oob_witness :
    (parseLoop ["-c"] initState).outcome = ParseOutcome.outOfBounds ∧
    (parseLoop ["-c", "0.5"] initState).outcome ≠
      ParseOutcome.outOfBounds :=
  ⟨(c10_trailing_option_oob "-c" initState (by decide)).1,
   (c10_trailing_option_oob "-c" initState (by decide)).2 "0.5"⟩
